import Mathlib

/-!
Verification of the InstructLab CLI command layer (`src/instructlab/lab.py`).

The file shallowly embeds the control flow of the `diff` and `init` click
commands.  External collaborators that are not part of the shown source
(`utils.get_taxonomy_diff`, `utils.read_taxonomy`, `git.Repo.clone_from`,
`os.listdir`, `os.path.isfile`, the interactive prompts and the config
module) are modelled as an explicit environment record carrying the result
each collaborator would produce on this invocation; the embedded command
functions consume that environment exactly in the order the Python source
consults the collaborators, and return an observable result: the stdout
lines produced by `click.echo`/`click.secho`, which external calls were
made, the configuration written (if any), and the process outcome.
-/

namespace InstructLab

/-- Python truthiness of an optional string argument: `None` and the empty
string are falsy (`if not taxonomy_base:` in the source). -/
def pyFalsyStr : Option String → Bool
  | none => true
  | some s => s.isEmpty

/-- The `generate` section of the loaded configuration, as read by `diff`
(`ctx.obj.config.generate.taxonomy_base` / `.taxonomy_path`). -/
structure GenerateView where
  taxonomy_base : String
  taxonomy_path : String
  deriving Repr, DecidableEq

/-- The click context object `ctx.obj`: it carries the loaded config and a
logger.  The logger itself has no observable effect in the embedded
commands, so only the config view is carried. -/
structure CtxObj where
  generate : GenerateView
  deriving Repr, DecidableEq

/-- Exceptions caught around `get_taxonomy_diff` in the source:
`except (SystemExit, GitError) as exc`. -/
inductive VcsErr where
  | systemExit (msg : String)
  | gitError (msg : String)
  deriving Repr, DecidableEq

def VcsErr.msg : VcsErr → String
  | .systemExit m => m
  | .gitError m => m

/-- Exceptions caught around `read_taxonomy` in the source:
`except (SystemExit, yaml.YAMLError) as exc`. -/
inductive ValErr where
  | systemExit (msg : String)
  | yamlError (msg : String)
  deriving Repr, DecidableEq

def ValErr.msg : ValErr → String
  | .systemExit m => m
  | .yamlError m => m

instance exceptDecEq {ε α : Type} [DecidableEq ε] [DecidableEq α] :
    DecidableEq (Except ε α) := fun a b =>
  match a, b with
  | .error x, .error y =>
      if h : x = y then .isTrue (congrArg Except.error h)
      else .isFalse (fun hc => h (Except.error.inj hc))
  | .ok x, .ok y =>
      if h : x = y then .isTrue (congrArg Except.ok h)
      else .isFalse (fun hc => h (Except.ok.inj hc))
  | .error _, .ok _ => .isFalse (fun hc => Except.noConfusion hc)
  | .ok _, .error _ => .isFalse (fun hc => Except.noConfusion hc)

/-- Environment of one `diff` invocation: what each external collaborator
would return if called. -/
structure DiffEnv where
  /-- `os.path.isfile(taxonomy_path)` -/
  isFile : Bool
  /-- result of `get_taxonomy_diff(taxonomy_path, taxonomy_base)` -/
  taxDiff : Except VcsErr (List String)
  /-- result of `read_taxonomy(logger, taxonomy_path, taxonomy_base, yaml_rules)` -/
  readTax : Except ValErr Unit
  deriving Repr, DecidableEq

/-- Process outcome of a `diff` invocation. -/
inductive DiffOutcome where
  /-- the command function returned normally: exit code 0 -/
  | ok
  /-- `raise SystemExit(1)`: exit code 1 -/
  | exit1
  /-- uncaught `AttributeError` from dereferencing `ctx.obj.config` when
  `ctx.obj` is `None`: an unhandled crash, not a reported failure -/
  | attrError
  deriving Repr, DecidableEq

/-- Observable result of a `diff` invocation. -/
structure DiffResult where
  /-- stdout lines from `click.echo` / `click.secho`, in order -/
  output : List String
  /-- whether `get_taxonomy_diff` was invoked -/
  diffCalled : Bool
  /-- whether `read_taxonomy` was invoked -/
  readCalled : Bool
  /-- whether the `if not ctx.obj:` fallback logger branch was taken -/
  usedFallbackLogger : Bool
  /-- process outcome -/
  outcome : DiffOutcome
  deriving Repr, DecidableEq

/-- `f"Reading taxonomy failed with the following error: {exc}"` — used for
both the diff-list failure and the validation failure messages. -/
def readFailMsg (e : String) : String :=
  s!"Reading taxonomy failed with the following error: {e}"

/-- `f"Taxonomy in /{taxonomy_path}/ is valid :)"` -/
def validMsg (tpath : String) : String :=
  s!"Taxonomy in /{tpath}/ is valid :)"

/-- The trailing `read_taxonomy` block of `diff` (source lines 242-255):
validation, error reporting (suppressed when quiet) and the success
message. `outSoFar`/`dCalled` carry the output and diff-call flag
accumulated by the earlier printing phase. -/
def readPhase (tpath : String) (quiet : Bool) (env : DiffEnv)
    (outSoFar : List String) (dCalled : Bool) (fallback : Bool) : DiffResult :=
  match env.readTax with
  | .error e =>
      { output := outSoFar ++ (if quiet then [] else [readFailMsg e.msg])
        diffCalled := dCalled
        readCalled := true
        usedFallbackLogger := fallback
        outcome := .exit1 }
  | .ok _ =>
      { output := outSoFar ++ (if quiet then [] else [validMsg tpath])
        diffCalled := dCalled
        readCalled := true
        usedFallbackLogger := fallback
        outcome := .ok }

/-- Body of `diff` after the taxonomy path/base have been resolved
(source lines 222-255): logger selection, the non-quiet printing phase
(file echo or diff listing with its short-circuit on failure), then the
validation phase. -/
def diffBody (obj : Option CtxObj) (tpath : String) (quiet : Bool)
    (env : DiffEnv) : DiffResult :=
  let fallback := obj.isNone
  if quiet then
    readPhase tpath true env [] false fallback
  else
    if env.isFile then
      readPhase tpath false env [tpath] false fallback
    else
      match env.taxDiff with
      | .error e =>
          { output := [readFailMsg e.msg]
            diffCalled := true
            readCalled := false
            usedFallbackLogger := fallback
            outcome := .exit1 }
      | .ok files =>
          readPhase tpath false env files true fallback

/-- The `diff` command (source lines 209-255).  `taxonomy_path` and
`taxonomy_base` are the click option values (`none` when not supplied).
Resolution from `ctx.obj.config` happens before the `if not ctx.obj:`
check, so a `None` context object crashes with `AttributeError` when
either option is falsy. -/
def diff (obj : Option CtxObj) (taxonomy_path taxonomy_base : Option String)
    (quiet : Bool) (env : DiffEnv) : DiffResult :=
  let crash : DiffResult :=
    { output := [], diffCalled := false, readCalled := false
      usedFallbackLogger := false, outcome := .attrError }
  if pyFalsyStr taxonomy_base then
    match obj with
    | none => crash
    | some o =>
      let _tbase := o.generate.taxonomy_base
      if pyFalsyStr taxonomy_path then
        diffBody obj o.generate.taxonomy_path quiet env
      else
        diffBody obj (taxonomy_path.getD "") quiet env
  else
    if pyFalsyStr taxonomy_path then
      match obj with
      | none => crash
      | some o => diffBody obj o.generate.taxonomy_path quiet env
    else
      diffBody obj (taxonomy_path.getD "") quiet env

/-- The taxonomy path `diff` operates on, as resolved by the source:
the explicitly supplied option when truthy, otherwise
`ctx.obj.config.generate.taxonomy_path`. -/
def resolvedTaxonomyPath (obj : Option CtxObj) (taxonomy_path : Option String) :
    String :=
  if pyFalsyStr taxonomy_path then
    match obj with
    | none => ""
    | some o => o.generate.taxonomy_path
  else taxonomy_path.getD ""

/-! ### The `init` command -/

/-- A path is absolute when it starts with the separator. -/
def isAbsolutePath (s : String) : Bool := s.data.head? = some '/'

/-- Modelled from the spec: `utils.expand_path` is code of this repository
that is not under `src/` (only its caller is shown).  The spec says the
prompted path is expanded "to an absolute path", so the model performs
absolutization of a relative path against the current working directory
and leaves already-absolute paths unchanged. -/
def expand_path (cwd : String) (p : String) : String :=
  if isAbsolutePath p then p else cwd ++ "/" ++ p

/-- The configuration sections mutated by `init`
(`cfg.chat.model`, `cfg.generate.*`, `cfg.serve.model_path`). -/
structure ChatSection where
  model : String
  deriving Repr, DecidableEq

structure GenerateSection where
  model : String
  taxonomy_path : String
  taxonomy_base : String
  deriving Repr, DecidableEq

structure ServeSection where
  model_path : String
  deriving Repr, DecidableEq

structure Config where
  chat : ChatSection
  generate : GenerateSection
  serve : ServeSection
  deriving Repr, DecidableEq

/-- One recorded call to `Repo.clone_from` with the arguments the source
passes (source lines 155-161).  `depth = none` models the Python
`depth=False` (full clone); `depth = some 1` models `depth=1`. -/
structure CloneCall where
  repository : String
  taxonomy_path : String
  branch : String
  recurse_submodules : Bool
  depth : Option Nat
  deriving Repr, DecidableEq

/-- Environment of one `init` invocation: the answers the external
collaborators and prompts would give if consulted. -/
structure InitEnv where
  /-- current working directory, against which prompted paths expand -/
  cwd : String
  /-- `exists(config.DEFAULT_CONFIG)` -/
  defaultConfigExists : Bool
  /-- answer to the `do you still want to continue?` confirmation -/
  confirmOverwrite : Bool
  /-- answer to the `Path to taxonomy repo` prompt -/
  promptTaxonomy : String
  /-- `os.listdir(taxonomy_path)`: `.error ()` models `FileNotFoundError` -/
  listdirContents : Except Unit (List String)
  /-- answer to the `Should I clone ... for you?` confirmation -/
  confirmClone : Bool
  /-- result of `Repo.clone_from`: `.error msg` models a raised `GitError` -/
  cloneResult : Except String Unit
  /-- `exists(dirname(model_path))` -/
  modelsDirExists : Bool
  /-- answer to the `Path to your model` prompt -/
  promptModel : String
  /-- `config.get_default_config()` -/
  defaultConfig : Config
  deriving Repr, DecidableEq

/-- Process outcome of an `init` invocation. -/
inductive InitOutcome where
  /-- the command function returned normally: exit code 0 -/
  | ok
  /-- `raise click.exceptions.Exit(1)`: exit code 1 -/
  | exit1
  deriving Repr, DecidableEq

/-- Observable result of an `init` invocation. -/
structure InitResult where
  /-- stdout lines from `click.echo` / `click.secho`, in order -/
  output : List String
  /-- calls made to `Repo.clone_from`, in order -/
  cloneCalls : List CloneCall
  /-- the configuration passed to `config.write_config`, if reached -/
  written : Option Config
  /-- process outcome -/
  outcome : InitOutcome
  deriving Repr, DecidableEq

def welcomeMsg1 : String :=
  "Welcome to InstructLab ilab. This guide will help you to setup your environment."

def welcomeMsg2 : String :=
  "Please provide the following values to initiate the environment [press Enter for defaults]:"

def cloningMsg (repository : String) : String := s!"Cloning {repository}..."

def cloneFailMsg (m : String) : String := s!"Failed to clone taxonomy repo: {m}"

def cloneRemediationMsg (repository : String) : String :=
  s!"Please make sure to manually run `git clone {repository}`"

def generatingMsg : String :=
  "Generating `config.yaml` in the current directory..."

def completedMsg : String :=
  "Initialization completed successfully, you're ready to start using `ilab`. Enjoy!"

/-- Tail of `init` after the clone decision has played out
(source lines 167-184): the optional model-path prompt, then building and
writing the configuration. -/
def initTail (interactive : Bool) (model_path taxonomy_base : String)
    (tpath : String) (env : InitEnv)
    (outSoFar : List String) (calls : List CloneCall) : InitResult :=
  let mpath :=
    if interactive && env.modelsDirExists then expand_path env.cwd env.promptModel
    else model_path
  let cfg0 := env.defaultConfig
  let cfg : Config :=
    { cfg0 with
      chat := { cfg0.chat with model := mpath }
      generate := { cfg0.generate with
                    model := mpath
                    taxonomy_path := tpath
                    taxonomy_base := taxonomy_base }
      serve := { cfg0.serve with model_path := mpath } }
  { output := outSoFar ++ [generatingMsg, completedMsg]
    cloneCalls := calls
    written := some cfg
    outcome := .ok }

/-- The `init` command (source lines 109-184). -/
def init (interactive : Bool)
    (model_path taxonomy_path taxonomy_base repository : String)
    (min_taxonomy : Bool) (env : InitEnv) : InitResult :=
  if interactive && env.defaultConfigExists && !env.confirmOverwrite then
    { output := [], cloneCalls := [], written := none, outcome := .ok }
  else
    let out0 := if interactive then [welcomeMsg1, welcomeMsg2] else []
    let tpath :=
      if interactive then expand_path env.cwd env.promptTaxonomy
      else taxonomy_path
    let taxonomy_contents :=
      match env.listdirContents with
      | .error _ => []
      | .ok l => l
    let clone_taxonomy_repo :=
      if !taxonomy_contents.isEmpty then false
      else if interactive then env.confirmClone
      else true
    if clone_taxonomy_repo then
      let clone_depth : Option Nat := if min_taxonomy then some 1 else none
      let call : CloneCall :=
        { repository := repository
          taxonomy_path := tpath
          branch := "main"
          recurse_submodules := true
          depth := clone_depth }
      match env.cloneResult with
      | .error m =>
          { output := out0 ++ [cloningMsg repository, cloneFailMsg m,
                               cloneRemediationMsg repository]
            cloneCalls := [call]
            written := none
            outcome := .exit1 }
      | .ok _ =>
          initTail interactive model_path taxonomy_base tpath env
            (out0 ++ [cloningMsg repository]) [call]
    else
      initTail interactive model_path taxonomy_base tpath env out0 []

/-! ### Helper lemmas -/

/-- When the context object is present, or both options were supplied
truthy, `diff` reaches its body with the resolved taxonomy path. -/
theorem diff_reaches_body (obj : Option CtxObj) (tp tb : Option String)
    (quiet : Bool) (env : DiffEnv)
    (hctx : obj.isSome = true ∨ (pyFalsyStr tb = false ∧ pyFalsyStr tp = false)) :
    diff obj tp tb quiet env =
      diffBody obj (resolvedTaxonomyPath obj tp) quiet env := by
  cases obj with
  | none =>
      rcases hctx with h | ⟨hb, hp⟩
      · simp [Option.isSome] at h
      · simp [diff, resolvedTaxonomyPath, hb, hp]
  | some o =>
      by_cases hb : pyFalsyStr tb <;> by_cases hp : pyFalsyStr tp <;>
        simp [diff, resolvedTaxonomyPath, hb, hp]

/-! ### Claims about `diff` -/

/-- C1: for every non-quiet invocation of `diff` where the taxonomy path is
a directory and the diff-list computation raises a VCS error or an internal
abort, the error is reported, the process exits with code 1, and
`read_taxonomy` is never called on that invocation. -/
theorem diff_list_failure_short_circuits
    (obj : Option CtxObj) (tp tb : Option String) (env : DiffEnv) (e : VcsErr)
    (hctx : obj.isSome = true ∨ (pyFalsyStr tb = false ∧ pyFalsyStr tp = false))
    (hfile : env.isFile = false) (herr : env.taxDiff = .error e) :
    (diff obj tp tb false env).outcome = .exit1 ∧
    (diff obj tp tb false env).readCalled = false ∧
    (diff obj tp tb false env).output = [readFailMsg e.msg] := by
  rw [diff_reaches_body obj tp tb false env hctx]
  simp [diffBody, hfile, herr]

theorem diff_list_failure_short_circuits_witness :
    (diff (some ⟨⟨"origin/main", "/tax"⟩⟩) none none false
        ⟨false, .error (.gitError "boom"), .ok ()⟩).outcome = .exit1 ∧
    (diff (some ⟨⟨"origin/main", "/tax"⟩⟩) none none false
        ⟨false, .error (.gitError "boom"), .ok ()⟩).readCalled = false ∧
    (diff (some ⟨⟨"origin/main", "/tax"⟩⟩) none none false
        ⟨false, .error (.gitError "boom"), .ok ()⟩).output =
      [readFailMsg "boom"] :=
  diff_list_failure_short_circuits (some ⟨⟨"origin/main", "/tax"⟩⟩) none none
    ⟨false, .error (.gitError "boom"), .ok ()⟩ (.gitError "boom")
    (Or.inl rfl) rfl rfl

/-- C2: for every invocation of `diff` with the quiet flag set, no standard
output is produced whether validation passes or fails, and the exit code is
0 when `read_taxonomy` succeeds and 1 when it fails. -/
theorem diff_quiet_silent_with_exit_signal
    (obj : Option CtxObj) (tp tb : Option String) (env : DiffEnv)
    (hctx : obj.isSome = true ∨ (pyFalsyStr tb = false ∧ pyFalsyStr tp = false)) :
    (diff obj tp tb true env).output = [] ∧
    (env.readTax = .ok () → (diff obj tp tb true env).outcome = .ok) ∧
    (∀ e, env.readTax = .error e → (diff obj tp tb true env).outcome = .exit1) := by
  rw [diff_reaches_body obj tp tb true env hctx]
  cases h : env.readTax <;> simp [diffBody, readPhase, h]

theorem diff_quiet_silent_with_exit_signal_witness :
    (diff (some ⟨⟨"origin/main", "/tax"⟩⟩) none none true
        ⟨false, .ok [], .error (.yamlError "bad")⟩).output = [] ∧
    ((⟨false, .ok [], .error (.yamlError "bad")⟩ : DiffEnv).readTax = .ok () →
      (diff (some ⟨⟨"origin/main", "/tax"⟩⟩) none none true
        ⟨false, .ok [], .error (.yamlError "bad")⟩).outcome = .ok) ∧
    (∀ e, (⟨false, .ok [], .error (.yamlError "bad")⟩ : DiffEnv).readTax = .error e →
      (diff (some ⟨⟨"origin/main", "/tax"⟩⟩) none none true
        ⟨false, .ok [], .error (.yamlError "bad")⟩).outcome = .exit1) :=
  diff_quiet_silent_with_exit_signal (some ⟨⟨"origin/main", "/tax"⟩⟩) none none
    ⟨false, .ok [], .error (.yamlError "bad")⟩ (Or.inl rfl)

/-- C3: for every non-quiet invocation of `diff` where the taxonomy path
names a single existing file, exactly that path is echoed before the
validation messages, `get_taxonomy_diff` is not invoked, and
`read_taxonomy` is still performed. -/
theorem diff_file_echo_skips_diff_still_validates
    (obj : Option CtxObj) (tp tb : Option String) (env : DiffEnv)
    (hctx : obj.isSome = true ∨ (pyFalsyStr tb = false ∧ pyFalsyStr tp = false))
    (hfile : env.isFile = true) :
    (diff obj tp tb false env).diffCalled = false ∧
    (diff obj tp tb false env).readCalled = true ∧
    (diff obj tp tb false env).output =
      resolvedTaxonomyPath obj tp ::
        (match env.readTax with
         | .error e => [readFailMsg e.msg]
         | .ok _ => [validMsg (resolvedTaxonomyPath obj tp)]) := by
  rw [diff_reaches_body obj tp tb false env hctx]
  cases h : env.readTax <;> simp [diffBody, readPhase, hfile, h]

theorem diff_file_echo_skips_diff_still_validates_witness :
    (diff (some ⟨⟨"origin/main", "/tax"⟩⟩) (some "/tax/file.yaml") none false
        ⟨true, .ok [], .ok ()⟩).diffCalled = false ∧
    (diff (some ⟨⟨"origin/main", "/tax"⟩⟩) (some "/tax/file.yaml") none false
        ⟨true, .ok [], .ok ()⟩).readCalled = true ∧
    (diff (some ⟨⟨"origin/main", "/tax"⟩⟩) (some "/tax/file.yaml") none false
        ⟨true, .ok [], .ok ()⟩).output =
      resolvedTaxonomyPath (some ⟨⟨"origin/main", "/tax"⟩⟩) (some "/tax/file.yaml") ::
        (match (⟨true, .ok [], .ok ()⟩ : DiffEnv).readTax with
         | .error e => [readFailMsg e.msg]
         | .ok _ => [validMsg (resolvedTaxonomyPath
             (some ⟨⟨"origin/main", "/tax"⟩⟩) (some "/tax/file.yaml"))]) :=
  diff_file_echo_skips_diff_still_validates (some ⟨⟨"origin/main", "/tax"⟩⟩)
    (some "/tax/file.yaml") none ⟨true, .ok [], .ok ()⟩ (Or.inl rfl) rfl

/-- C9: for every invocation of `diff` with the quiet flag set,
`get_taxonomy_diff` is never invoked, and the whole observable result is
independent of what the diff-list computation would have returned — a VCS
error there can never make a quiet invocation fail. -/
theorem diff_quiet_never_computes_diff
    (obj : Option CtxObj) (tp tb : Option String) (env : DiffEnv)
    (d d' : Except VcsErr (List String)) :
    (diff obj tp tb true env).diffCalled = false ∧
    diff obj tp tb true { env with taxDiff := d } =
      diff obj tp tb true { env with taxDiff := d' } := by
  cases obj <;> by_cases hb : pyFalsyStr tb <;> by_cases hp : pyFalsyStr tp <;>
    cases h : env.readTax <;>
      simp [diff, diffBody, readPhase, hb, hp, h]

/-- C10: in `diff`, whenever the taxonomy base or taxonomy path option is
not supplied (falsy), `ctx.obj.config` is dereferenced before the
`if not ctx.obj:` check, so the fallback-logger branch is unreachable in
that case, and invoking `diff` without a context object crashes with an
uncaught `AttributeError` — producing no reported message — rather than a
reported (message, exit code) failure. -/
theorem diff_config_deref_before_ctx_check
    (obj : Option CtxObj) (tp tb : Option String) (quiet : Bool) (env : DiffEnv)
    (h : pyFalsyStr tb = true ∨ pyFalsyStr tp = true) :
    (diff obj tp tb quiet env).usedFallbackLogger = false ∧
    (obj = none →
      (diff obj tp tb quiet env).outcome = .attrError ∧
      (diff obj tp tb quiet env).output = []) := by
  cases obj with
  | none =>
      rcases h with h | h
      · simp [diff, h]
      · by_cases hb : pyFalsyStr tb <;> simp [diff, h, hb]
  | some o =>
      by_cases hb : pyFalsyStr tb <;> by_cases hp : pyFalsyStr tp <;>
        cases hr : env.readTax <;> cases hf : env.isFile <;>
          cases hd : env.taxDiff <;> cases quiet <;>
            simp [diff, diffBody, readPhase, hb, hp, hr, hf, hd]

theorem diff_config_deref_before_ctx_check_witness :
    (diff none none none false
        ⟨false, .ok [], .ok ()⟩).usedFallbackLogger = false ∧
    ((none : Option CtxObj) = none →
      (diff none none none false ⟨false, .ok [], .ok ()⟩).outcome = .attrError ∧
      (diff none none none false ⟨false, .ok [], .ok ()⟩).output = []) :=
  diff_config_deref_before_ctx_check none none none false
    ⟨false, .ok [], .ok ()⟩ (Or.inl rfl)

/-- The model path `init` persists: the prompted path (expanded) when
interactive and the models directory exists, else the CLI option value. -/
def effectiveModelPath (interactive : Bool) (mp : String) (env : InitEnv) : String :=
  if interactive && env.modelsDirExists then expand_path env.cwd env.promptModel
  else mp

/-- The taxonomy path `init` operates on: the prompted path (expanded)
when interactive, else the CLI option value. -/
def effectiveTaxonomyPath (interactive : Bool) (tp : String) (env : InitEnv) : String :=
  if interactive then expand_path env.cwd env.promptTaxonomy else tp

/-- `init` makes either no clone call or exactly the one call with the
arguments of source lines 155-161. -/
theorem init_cloneCalls_sub (interactive : Bool) (mp tp tb repo : String)
    (mt : Bool) (env : InitEnv) :
    (init interactive mp tp tb repo mt env).cloneCalls = [] ∨
    (init interactive mp tp tb repo mt env).cloneCalls =
      [{ repository := repo
         taxonomy_path := effectiveTaxonomyPath interactive tp env
         branch := "main"
         recurse_submodules := true
         depth := if mt then some 1 else none }] := by
  rcases env with ⟨cwd, dce, co, pt, lc, cc, cr, mde, pm, dc⟩
  cases interactive <;> cases dce <;> cases co <;> cases cc <;> cases mt <;>
    rcases lc with u | (_ | ⟨a, l⟩) <;> rcases cr with m | u2 <;>
      first
        | (left; rfl)
        | (right; rfl)

/-- `init` either writes no configuration, or completes with outcome `ok`
having written exactly the record built at source lines 174-180. -/
theorem init_written_sub (interactive : Bool) (mp tp tb repo : String)
    (mt : Bool) (env : InitEnv) :
    (init interactive mp tp tb repo mt env).written = none ∨
    ((init interactive mp tp tb repo mt env).outcome = .ok ∧
     (init interactive mp tp tb repo mt env).written = some
       { chat := { model := effectiveModelPath interactive mp env }
         generate := { model := effectiveModelPath interactive mp env
                       taxonomy_path := effectiveTaxonomyPath interactive tp env
                       taxonomy_base := tb }
         serve := { model_path := effectiveModelPath interactive mp env } }) := by
  rcases env with ⟨cwd, dce, co, pt, lc, cc, cr, mde, pm, dc⟩
  cases interactive <;> cases dce <;> cases co <;> cases cc <;> cases mde <;>
    rcases lc with u | (_ | ⟨a, l⟩) <;> rcases cr with m | u2 <;>
      first
        | (left; rfl)
        | (right; exact ⟨rfl, rfl⟩)

/-! ### Claims about `init` -/

/-- C4: for every invocation of `init` that is not aborted at the
overwrite confirmation: when the taxonomy directory exists and is
non-empty the clone operation is not invoked, and when it is empty or
nonexistent and cloning is confirmed (or the mode is non-interactive)
the clone is invoked exactly once with `branch="main"` and
`recurse_submodules=True`. -/
theorem init_clone_decision
    (interactive : Bool) (mp tp tb repo : String) (mt : Bool) (env : InitEnv)
    (hnoabort : interactive = true →
      env.defaultConfigExists = false ∨ env.confirmOverwrite = true) :
    ((∃ l, env.listdirContents = .ok l ∧ l ≠ []) →
      (init interactive mp tp tb repo mt env).cloneCalls = []) ∧
    ((env.listdirContents = .error () ∨ env.listdirContents = .ok []) →
      (interactive = false ∨ env.confirmClone = true) →
      ∃ c, (init interactive mp tp tb repo mt env).cloneCalls = [c] ∧
        c.branch = "main" ∧ c.recurse_submodules = true) := by
  constructor
  · rintro ⟨l, hl, hne⟩
    cases interactive with
    | false => simp [init, initTail, hl, hne]
    | true =>
        rcases hnoabort rfl with hd | hd <;>
          simp [init, initTail, hl, hne, hd]
  · rintro hl hcl
    cases interactive with
    | false =>
        rcases hl with hl | hl <;> cases hr : env.cloneResult <;>
          simp [init, initTail, hl, hr]
    | true =>
        rcases hcl with hcl | hcl
        · exact absurd hcl (by simp)
        · rcases hnoabort rfl with hd | hd <;>
            rcases hl with hl | hl <;> cases hr : env.cloneResult <;>
              simp [init, initTail, hl, hd, hcl, hr]

/-- A concrete `init` environment used by witnesses: empty taxonomy
directory, successful clone, no models directory. -/
def envEmptyTax : InitEnv :=
  { cwd := "/home/user"
    defaultConfigExists := false
    confirmOverwrite := true
    promptTaxonomy := "taxonomy"
    listdirContents := .ok []
    confirmClone := true
    cloneResult := .ok ()
    modelsDirExists := false
    promptModel := "model"
    defaultConfig := ⟨⟨"dm"⟩, ⟨"dm", "dt", "db"⟩, ⟨"dm"⟩⟩ }

theorem init_clone_decision_witness :
    ∃ c, (init false "/models/m" "/tax" "origin/main" "https://r" false
            envEmptyTax).cloneCalls = [c] ∧
      c.branch = "main" ∧ c.recurse_submodules = true :=
  (init_clone_decision false "/models/m" "/tax" "origin/main" "https://r" false
      envEmptyTax (by decide)).2 (Or.inr rfl) (Or.inl rfl)

/-- C5: every clone call made by `init` is requested with `depth=1` when
the `min_taxonomy` flag is set and with full depth (`depth=False`) when it
is omitted. -/
theorem init_clone_depth_from_min_taxonomy
    (interactive : Bool) (mp tp tb repo : String) (mt : Bool) (env : InitEnv) :
    ∀ c ∈ (init interactive mp tp tb repo mt env).cloneCalls,
      c.depth = if mt then some 1 else none := by
  intro c hc
  rcases init_cloneCalls_sub interactive mp tp tb repo mt env with h | h <;>
    rw [h] at hc
  · simp at hc
  · rw [List.mem_singleton] at hc
    subst hc
    rfl

theorem init_clone_depth_from_min_taxonomy_witness :
    ({ repository := "https://r"
       taxonomy_path := "/tax"
       branch := "main"
       recurse_submodules := true
       depth := some 1 } : CloneCall).depth = some 1 :=
  init_clone_depth_from_min_taxonomy false "/models/m" "/tax" "origin/main"
    "https://r" true envEmptyTax _ (by decide)

/-- C6: every invocation of `init` that persists a configuration writes
the effective model path to all three of `chat.model`, `generate.model`
and `serve.model_path`, stores the taxonomy path and base in
`generate.taxonomy_path` / `generate.taxonomy_base`, and exits with
code 0. -/
theorem init_success_propagates_paths
    (interactive : Bool) (mp tp tb repo : String) (mt : Bool) (env : InitEnv)
    (cfg : Config)
    (h : (init interactive mp tp tb repo mt env).written = some cfg) :
    (init interactive mp tp tb repo mt env).outcome = .ok ∧
    cfg.generate.model = cfg.chat.model ∧
    cfg.serve.model_path = cfg.chat.model ∧
    cfg.chat.model = effectiveModelPath interactive mp env ∧
    cfg.generate.taxonomy_path = effectiveTaxonomyPath interactive tp env ∧
    cfg.generate.taxonomy_base = tb := by
  rcases init_written_sub interactive mp tp tb repo mt env with hn | ⟨hok, hw⟩
  · rw [hn] at h
    exact absurd h (by simp)
  · rw [hw] at h
    injection h with h
    subst h
    exact ⟨hok, rfl, rfl, rfl, rfl, rfl⟩

theorem init_success_propagates_paths_witness :
    (init false "/models/m" "/tax" "origin/main" "https://r" false
        envEmptyTax).outcome = .ok ∧
    ("/models/m" : String) = "/models/m" ∧
    ("/models/m" : String) = "/models/m" ∧
    ("/models/m" : String) = effectiveModelPath false "/models/m" envEmptyTax ∧
    ("/tax" : String) = effectiveTaxonomyPath false "/tax" envEmptyTax ∧
    ("origin/main" : String) = "origin/main" :=
  init_success_propagates_paths false "/models/m" "/tax" "origin/main"
    "https://r" false envEmptyTax
    ⟨⟨"/models/m"⟩, ⟨"/models/m", "/tax", "origin/main"⟩, ⟨"/models/m"⟩⟩
    (by decide)

/-- Expanding against an absolute working directory yields an absolute
path. -/
theorem expand_path_absolute (cwd p : String) (h : isAbsolutePath cwd = true) :
    isAbsolutePath (expand_path cwd p) = true := by
  unfold expand_path
  by_cases hp : isAbsolutePath p = true
  · simp [hp]
  · simp only [hp, Bool.false_eq_true, if_false]
    unfold isAbsolutePath at h ⊢
    rcases hc : cwd.data with _ | ⟨a, t⟩
    · rw [hc] at h
      simp at h
    · rw [hc] at h
      simp only [List.head?_cons, Option.some.injEq, decide_eq_true_eq] at h
      subst h
      simp [String.data_append, hc]

/-- The environment of the C7 counterexample: the taxonomy directory is
non-empty, so no clone is attempted and `init` proceeds straight to
writing the configuration. -/
def envC7 : InitEnv :=
  { envEmptyTax with listdirContents := .ok ["README.md"] }

/-- C7 counterexample: a non-interactive `init` given relative CLI paths
persists them verbatim — the written configuration's taxonomy path and
model path are not absolute. -/
theorem init_persists_relative_paths :
    ((init false "models/m" "tax" "origin/main" "https://r" false
        envC7).written.map
      fun cfg => (isAbsolutePath cfg.generate.taxonomy_path,
                  isAbsolutePath cfg.chat.model)) = some (false, false) := by
  decide

/-- C7 amended: only paths entered through an interactive prompt are
expanded to absolute paths before persisting — the taxonomy path whenever
the invocation is interactive, and the model path additionally only when
the models directory exists; non-interactive invocations persist the
CLI-provided paths verbatim. -/
theorem init_interactive_prompted_paths_absolute
    (mp tp tb repo : String) (mt : Bool) (env : InitEnv) (cfg : Config)
    (hcwd : isAbsolutePath env.cwd = true)
    (h : (init true mp tp tb repo mt env).written = some cfg) :
    isAbsolutePath cfg.generate.taxonomy_path = true ∧
    (env.modelsDirExists = true → isAbsolutePath cfg.chat.model = true) := by
  rcases init_written_sub true mp tp tb repo mt env with hn | ⟨_, hw⟩
  · rw [hn] at h
    exact absurd h (by simp)
  · rw [hw] at h
    injection h with h
    subst h
    refine ⟨expand_path_absolute env.cwd env.promptTaxonomy hcwd, fun hm => ?_⟩
    show isAbsolutePath (effectiveModelPath true mp env) = true
    rw [effectiveModelPath, hm]
    exact expand_path_absolute env.cwd env.promptModel hcwd

/-- A concrete interactive environment with an absolute working
directory. -/
def envInteractive : InitEnv :=
  { envEmptyTax with modelsDirExists := true }

theorem init_interactive_prompted_paths_absolute_witness :
    isAbsolutePath
      (Config.mk ⟨"/home/user/model"⟩
        ⟨"/home/user/model", "/home/user/taxonomy", "origin/main"⟩
        ⟨"/home/user/model"⟩).generate.taxonomy_path = true ∧
    (envInteractive.modelsDirExists = true →
      isAbsolutePath
        (Config.mk ⟨"/home/user/model"⟩
          ⟨"/home/user/model", "/home/user/taxonomy", "origin/main"⟩
          ⟨"/home/user/model"⟩).chat.model = true) :=
  init_interactive_prompted_paths_absolute "m" "t" "origin/main" "https://r"
    false envInteractive
    ⟨⟨"/home/user/model"⟩,
      ⟨"/home/user/model", "/home/user/taxonomy", "origin/main"⟩,
      ⟨"/home/user/model"⟩⟩
    (by decide) (by decide)

/-- C8: every invocation of `init` whose clone operation fails with a VCS
error reports the failure with remediation text, writes no configuration,
and terminates with exit code 1 — a handled outcome, not an unhandled
exception. -/
theorem init_clone_failure_reported
    (interactive : Bool) (mp tp tb repo : String) (mt : Bool) (env : InitEnv)
    (m : String)
    (hfail : env.cloneResult = .error m)
    (hclone : (init interactive mp tp tb repo mt env).cloneCalls ≠ []) :
    (init interactive mp tp tb repo mt env).outcome = .exit1 ∧
    cloneFailMsg m ∈ (init interactive mp tp tb repo mt env).output ∧
    cloneRemediationMsg repo ∈ (init interactive mp tp tb repo mt env).output ∧
    (init interactive mp tp tb repo mt env).written = none := by
  rcases env with ⟨cwd, dce, co, pt, lc, cc, cr, mde, pm, dc⟩
  subst hfail
  cases interactive <;> cases dce <;> cases co <;> cases cc <;>
    rcases lc with u | (_ | ⟨a, l⟩) <;>
      first
        | (exact absurd rfl hclone)
        | (refine ⟨rfl, ?_, ?_, rfl⟩ <;> simp [init, initTail])

theorem init_clone_failure_reported_witness :
    (init false "/models/m" "/tax" "origin/main" "https://r" false
        { envEmptyTax with cloneResult := .error "denied" }).outcome = .exit1 ∧
    cloneFailMsg "denied" ∈
      (init false "/models/m" "/tax" "origin/main" "https://r" false
        { envEmptyTax with cloneResult := .error "denied" }).output ∧
    cloneRemediationMsg "https://r" ∈
      (init false "/models/m" "/tax" "origin/main" "https://r" false
        { envEmptyTax with cloneResult := .error "denied" }).output ∧
    (init false "/models/m" "/tax" "origin/main" "https://r" false
        { envEmptyTax with cloneResult := .error "denied" }).written = none :=
  init_clone_failure_reported false "/models/m" "/tax" "origin/main" "https://r"
    false { envEmptyTax with cloneResult := .error "denied" } "denied"
    rfl (by decide)

end InstructLab
